import Mathlib

/-!
Verification of the investment-decision calculation engine of the
art-pro/stock-backend repository (package `pkg/services`, file
`calculations.go`).

The Go code works on IEEE-754 float64; this development embeds the
arithmetic in exact rational arithmetic (`ℚ`).  All guards in the source
compare against 0 or fixed decimal constants, so every branch condition
and every formula transfers verbatim; `math.Abs` becomes `|·|`, and the
`math.IsNaN`/`math.IsInf` checks of the threshold solver are vacuous over
`ℚ` (a rational is always finite), leaving only the `price <= 0` check.
Go decimal literals (0.65, 0.1, 0.90, 0.85, 0.95) are written as exact
rationals.

The Go `Stock` model carries raw input fields and derived fields that
`CalculateMetrics` writes in place; here the struct is immutable and
`CalculateMetrics` returns the updated record.  Field names follow the
source, except that `BRatio` and `SharpeRatio` are rendered as
`BRatioVal` and `SharpeRatioVal`.
-/

namespace StockBackend

/-- The stock/position record (`pkg/models.Stock`), restricted to the fields
the calculation engine reads or writes.  `SharesOwned` is an integer in the
source (converted with `float64(...)` before use). -/
structure Stock where
  Ticker : String
  Sector : String
  Currency : String
  CurrentPrice : ℚ
  FairValue : ℚ
  Beta : ℚ
  ProbabilityPositive : ℚ
  DownsideRisk : ℚ
  Volatility : ℚ
  SharesOwned : Int
  AvgPriceLocal : ℚ
  UpsidePotential : ℚ
  BRatioVal : ℚ
  ExpectedValue : ℚ
  KellyFraction : ℚ
  HalfKellySuggested : ℚ
  Assessment : String
  BuyZoneMin : ℚ
  BuyZoneMax : ℚ
  SellZoneLowerBound : ℚ
  SellZoneUpperBound : ℚ
  SellZoneStatus : String
deriving DecidableEq

/-- Source constant `defaultProbabilityPositive = 0.65`. -/
def defaultProbabilityPositive : ℚ := 65 / 100

/-- Source constant `riskFreeRatePercent = 4.0`. -/
def riskFreeRatePercent : ℚ := 4

/-- Source constant `minDownsideMagnitude = 0.1`. -/
def minDownsideMagnitude : ℚ := 1 / 10

/-- Source `calibrateDownsideRisk`: beta-based downside-risk breakpoints. -/
def calibrateDownsideRisk (beta : ℚ) : ℚ :=
  if beta < 1 / 2 then -15
  else if beta < 1 then -20
  else if beta < 3 / 2 then -25
  else -30

/-- Source `solvePriceForEVThreshold`: invert the EV formula for the price at
which EV equals `evThreshold`.  Over `ℚ` the `IsNaN`/`IsInf` checks of the
source cannot fire; the remaining feasibility checks are `denominator <= 0`
and `price <= 0`. -/
def solvePriceForEVThreshold (fairValue probabilityPositive downsideRisk evThreshold : ℚ) :
    ℚ × Bool :=
  if evThreshold + 100 * probabilityPositive + (1 - probabilityPositive) * |downsideRisk| ≤ 0
  then (0, false)
  else if (100 * probabilityPositive * fairValue) /
      (evThreshold + 100 * probabilityPositive + (1 - probabilityPositive) * |downsideRisk|) ≤ 0
  then (0, false)
  else ((100 * probabilityPositive * fairValue) /
    (evThreshold + 100 * probabilityPositive + (1 - probabilityPositive) * |downsideRisk|), true)

/-- Source `expectedValueAtPrice`: forward EV formula at an arbitrary price. -/
def expectedValueAtPrice (fairValue probabilityPositive downsideRisk currentPrice : ℚ) : ℚ :=
  if currentPrice ≤ 0 then 0
  else
    probabilityPositive * (((fairValue - currentPrice) / currentPrice) * 100) +
      (1 - probabilityPositive) * downsideRisk

/-!
`CalculateMetrics` mutates the record field by field, each step reading only
raw fields (never written) or fields finalized by earlier steps.  The
embedding names each step's result as a function of the original record and
assembles the final record at the end; the data flow is identical to the
source because no step reads a derived field before writing it, except where
the source deliberately leaves a stale field in place (steps 2 and 9), which
the embedding reproduces by returning the original field value.
-/

/-- Step 1 of `CalculateMetrics`: downside risk after calibration - calibrate
from beta only when the stored value is exactly 0, fallback -20 when beta is
non-positive. -/
def calibratedDownsideRisk (s : Stock) : ℚ :=
  if s.DownsideRisk = 0 then
    (if s.Beta > 0 then calibrateDownsideRisk s.Beta else -20)
  else s.DownsideRisk

/-- Step 2 of `CalculateMetrics`: upside potential; only recomputed when both
current price and fair value are positive, otherwise the stored (possibly
stale) value is kept. -/
def upsidePotentialOf (s : Stock) : ℚ :=
  if s.CurrentPrice > 0 ∧ s.FairValue > 0 then
    ((s.FairValue - s.CurrentPrice) / s.CurrentPrice) * 100
  else s.UpsidePotential

/-- Step 3 of `CalculateMetrics`: probability sanitization - out-of-range
values (including the zero default) are replaced by 0.65. -/
def sanitizedProbability (s : Stock) : ℚ :=
  if s.ProbabilityPositive ≤ 0 ∨ s.ProbabilityPositive > 1 then
    defaultProbabilityPositive
  else s.ProbabilityPositive

/-- Step 4 of `CalculateMetrics` (first half): |downside| floored at 0.1. -/
def downsideMagnitudeOf (s : Stock) : ℚ :=
  if |calibratedDownsideRisk s| < minDownsideMagnitude then minDownsideMagnitude
  else |calibratedDownsideRisk s|

/-- Step 4 of `CalculateMetrics` (second half): b ratio (source field
`BRatio`). -/
def bRatioOf (s : Stock) : ℚ :=
  upsidePotentialOf s / downsideMagnitudeOf s

/-- Step 5 of `CalculateMetrics`: expected value. -/
def expectedValueOf (s : Stock) : ℚ :=
  sanitizedProbability s * upsidePotentialOf s +
    (1 - sanitizedProbability s) * calibratedDownsideRisk s

/-- Step 6 of `CalculateMetrics`: Kelly fraction in percent, clamped at 0;
zero outright when the b ratio is non-positive. -/
def kellyFractionOf (s : Stock) : ℚ :=
  if bRatioOf s > 0 then
    if ((bRatioOf s * sanitizedProbability s) - (1 - sanitizedProbability s)) /
        bRatioOf s * 100 < 0 then 0
    else ((bRatioOf s * sanitizedProbability s) - (1 - sanitizedProbability s)) /
      bRatioOf s * 100
  else 0

/-- Step 7 of `CalculateMetrics`: half-Kelly suggested weight, capped at 15. -/
def halfKellySuggestedOf (s : Stock) : ℚ :=
  if kellyFractionOf s / 2 > 15 then 15 else kellyFractionOf s / 2

/-- Step 8 of `CalculateMetrics`: categorical assessment from EV. -/
def assessmentOf (s : Stock) : String :=
  if expectedValueOf s > 7 then "Add"
  else if expectedValueOf s ≥ 3 ∧ expectedValueOf s ≤ 7 then "Hold"
  else if expectedValueOf s ≥ 0 ∧ expectedValueOf s < 3 then "Trim"
  else "Sell"

/-- Step 9 of `CalculateMetrics` (intermediate): the upside required for EV to
reach the 7% entry target, at the sanitized probability and calibrated
downside risk. -/
def requiredUpsideOf (s : Stock) : ℚ :=
  (7 - (1 - sanitizedProbability s) * calibratedDownsideRisk s) / sanitizedProbability s

/-- Step 9 of `CalculateMetrics`: buy zone (min, max).  When fair value or the
sanitized probability is non-positive the stored values are kept; the
fallback branch uses fixed bands around the current price. -/
def buyZoneOf (s : Stock) : ℚ × ℚ :=
  if s.FairValue > 0 ∧ sanitizedProbability s > 0 then
    if requiredUpsideOf s > -100 then
      (s.FairValue / (1 + requiredUpsideOf s / 100) * (9 / 10),
       s.FairValue / (1 + requiredUpsideOf s / 100))
    else (s.CurrentPrice * (85 / 100), s.CurrentPrice * (95 / 100))
  else (s.BuyZoneMin, s.BuyZoneMax)

/-- Step 10 of `CalculateMetrics` (assembly): combine the two threshold
solves (EV = 3 and EV = 0) into (lower, upper, status). -/
def assembleSellZone (trimSolve sellSolve : ℚ × Bool) (ev : ℚ) : ℚ × ℚ × String :=
  match trimSolve, sellSolve with
  | (lo, true), (hi, true) =>
    if lo < hi then
      (lo, hi,
        if ev > 3 then "Below sell zone"
        else if ev > 0 then "In trim zone"
        else "In sell zone")
    else (0, 0, "no sell zone")
  | _, _ => (0, 0, "no sell zone")

/-- Step 10 of `CalculateMetrics`: sell zone (lower, upper, status). -/
def sellZoneOf (s : Stock) : ℚ × ℚ × String :=
  assembleSellZone
    (solvePriceForEVThreshold s.FairValue (sanitizedProbability s) (calibratedDownsideRisk s) 3)
    (solvePriceForEVThreshold s.FairValue (sanitizedProbability s) (calibratedDownsideRisk s) 0)
    (expectedValueOf s)

/-- Source `CalculateMetrics` (pkg/services variant, the most complete one):
write all derived fields of the record. -/
def CalculateMetrics (s : Stock) : Stock :=
  { s with
    DownsideRisk := calibratedDownsideRisk s
    UpsidePotential := upsidePotentialOf s
    ProbabilityPositive := sanitizedProbability s
    BRatioVal := bRatioOf s
    ExpectedValue := expectedValueOf s
    KellyFraction := kellyFractionOf s
    HalfKellySuggested := halfKellySuggestedOf s
    Assessment := assessmentOf s
    BuyZoneMin := (buyZoneOf s).1
    BuyZoneMax := (buyZoneOf s).2
    SellZoneLowerBound := (sellZoneOf s).1
    SellZoneUpperBound := (sellZoneOf s).2.1
    SellZoneStatus := (sellZoneOf s).2.2 }

/-!
Standalone zone-query entry points.  The Go functions return
`(Result, error)`; the embedding returns the result paired with
`Option String` (the error message, `none` for Go's `nil`).
-/

/-- Source `BuyZone` struct. -/
structure BuyZone where
  LowerBound : ℚ
  UpperBound : ℚ
deriving DecidableEq

/-- Source `BuyZoneCalculationResult` struct. -/
structure BuyZoneCalculationResult where
  Ticker : String
  FairValue : ℚ
  ProbabilityPositive : ℚ
  DownsideRisk : ℚ
  BuyZone : BuyZone
  CurrentExpectedValue : ℚ
  ZoneStatus : String
deriving DecidableEq

/-- Source `SellZone` struct. -/
structure SellZone where
  LowerBound : ℚ
  UpperBound : ℚ
deriving DecidableEq

/-- Source `SellZoneCalculationResult` struct. -/
structure SellZoneCalculationResult where
  Ticker : String
  FairValue : ℚ
  ProbabilityPositive : ℚ
  DownsideRisk : ℚ
  SellZone : SellZone
  CurrentExpectedValue : ℚ
  SellZoneStatus : String
deriving DecidableEq

/-- Source `CalculateBuyZoneResult`: validate, solve the EV = 15 and EV = 7
thresholds, classify the current price against the zone. -/
def CalculateBuyZoneResult (ticker : String)
    (fairValue probabilityPositive downsideRisk currentPrice : ℚ) :
    BuyZoneCalculationResult × Option String :=
  let result : BuyZoneCalculationResult :=
    { Ticker := ticker
      FairValue := fairValue
      ProbabilityPositive := probabilityPositive
      DownsideRisk := downsideRisk
      BuyZone := { LowerBound := 0, UpperBound := 0 }
      CurrentExpectedValue := 0
      ZoneStatus := "" }
  if probabilityPositive < 0 ∨ probabilityPositive > 1 then
    (result, some "probability_positive must be between 0 and 1")
  else if downsideRisk ≥ 0 then
    (result, some "downside_risk must be negative")
  else if fairValue ≤ 0 then
    (result, some "fair_value must be positive")
  else
    let lowerSolve := solvePriceForEVThreshold fairValue probabilityPositive downsideRisk 15
    let upperSolve := solvePriceForEVThreshold fairValue probabilityPositive downsideRisk 7
    if ¬ lowerSolve.2 ∨ ¬ upperSolve.2 then
      ({ result with ZoneStatus := "no buy zone available" }, none)
    else
      let result := { result with
        BuyZone := { LowerBound := lowerSolve.1, UpperBound := upperSolve.1 } }
      if result.BuyZone.LowerBound > result.BuyZone.UpperBound then
        ({ result with ZoneStatus := "no buy zone available" }, none)
      else if currentPrice > 0 then
        ({ result with
            CurrentExpectedValue :=
              expectedValueAtPrice fairValue probabilityPositive downsideRisk currentPrice
            ZoneStatus :=
              if currentPrice < result.BuyZone.LowerBound then "EV >> 15%"
              else if currentPrice ≤ result.BuyZone.UpperBound then "within buy zone"
              else "outside buy zone" }, none)
      else (result, none)

/-- Source `CalculateSellZoneResult`: validate, solve the EV = 3 and EV = 0
thresholds, classify the current EV against the trim/sell boundaries. -/
def CalculateSellZoneResult (ticker : String)
    (fairValue probabilityPositive downsideRisk currentPrice : ℚ) :
    SellZoneCalculationResult × Option String :=
  let result : SellZoneCalculationResult :=
    { Ticker := ticker
      FairValue := fairValue
      ProbabilityPositive := probabilityPositive
      DownsideRisk := downsideRisk
      SellZone := { LowerBound := 0, UpperBound := 0 }
      CurrentExpectedValue := 0
      SellZoneStatus := "" }
  if probabilityPositive < 0 ∨ probabilityPositive > 1 then
    (result, some "probability_positive must be between 0 and 1")
  else if downsideRisk ≥ 0 then
    (result, some "downside_risk must be negative")
  else if fairValue ≤ 0 then
    (result, some "fair_value must be positive")
  else
    let trimSolve := solvePriceForEVThreshold fairValue probabilityPositive downsideRisk 3
    let sellSolve := solvePriceForEVThreshold fairValue probabilityPositive downsideRisk 0
    if ¬ trimSolve.2 ∨ ¬ sellSolve.2 ∨ trimSolve.1 ≥ sellSolve.1 then
      ({ result with SellZoneStatus := "no sell zone" }, none)
    else
      let result := { result with
        SellZone := { LowerBound := trimSolve.1, UpperBound := sellSolve.1 } }
      if currentPrice > 0 then
        let ev := expectedValueAtPrice fairValue probabilityPositive downsideRisk currentPrice
        ({ result with
            CurrentExpectedValue := ev
            SellZoneStatus :=
              if ev > 3 then "Below sell zone"
              else if ev > 0 then "In trim zone"
              else "In sell zone" }, none)
      else (result, none)

/-!
Portfolio aggregation.  The Go function takes `map[string]float64` FX rates;
the embedding uses an association list, with the Go map-indexing convention
that a missing key reads as the zero value.
-/

/-- Go map read `fxRates[currency]`: first matching entry, zero value when
the key is absent. -/
def lookupRate (fxRates : List (String × ℚ)) (currency : String) : ℚ :=
  (fxRates.lookup currency).getD 0

/-- Value of one position in the base currency as computed in pass 1 of
`CalculatePortfolioMetrics` (`stockValues[i]`): zero when the position is
skipped (non-positive shares, or missing/non-positive rate), otherwise
`shares * currentPrice / rate`. -/
def stockValueEUR (fxRates : List (String × ℚ)) (s : Stock) : ℚ :=
  if s.SharesOwned ≤ 0 then 0
  else if lookupRate fxRates s.Currency ≤ 0 then 0
  else (s.SharesOwned : ℚ) * s.CurrentPrice / lookupRate fxRates s.Currency

/-- Accumulator of pass 2 of `CalculatePortfolioMetrics`. -/
structure Pass2Acc where
  weightedEV : ℚ
  weightedVolatility : ℚ
  sectorWeights : List (String × ℚ)
  kellyUtilization : ℚ
deriving DecidableEq

/-- Go map update `sectorWeights[sector] += v`: add to the existing entry or
append a new one. -/
def addToSectorMap : List (String × ℚ) → String → ℚ → List (String × ℚ)
  | [], sector, v => [(sector, v)]
  | (k, w) :: rest, sector, v =>
    if k = sector then (k, w + v) :: rest
    else (k, w) :: addToSectorMap rest sector v

/-- One iteration of pass 2 of `CalculatePortfolioMetrics`: skip non-owned
positions, and accumulate weighted aggregates only when the total and the
position value are positive. -/
def pass2Step (fxRates : List (String × ℚ)) (totalValue : ℚ)
    (acc : Pass2Acc) (s : Stock) : Pass2Acc :=
  if s.SharesOwned ≤ 0 then acc
  else if totalValue > 0 ∧ stockValueEUR fxRates s > 0 then
    { weightedEV := acc.weightedEV +
        s.ExpectedValue * (stockValueEUR fxRates s / totalValue)
      weightedVolatility := acc.weightedVolatility +
        s.Volatility * (stockValueEUR fxRates s / totalValue)
      sectorWeights := addToSectorMap acc.sectorWeights s.Sector
        (stockValueEUR fxRates s / totalValue * 100)
      kellyUtilization := acc.kellyUtilization +
        stockValueEUR fxRates s / totalValue * 100 }
  else acc

/-- Source `PortfolioMetrics` struct (field `SharpeRatio` rendered as
`SharpeRatioVal`). -/
structure PortfolioMetrics where
  TotalValue : ℚ
  OverallEV : ℚ
  WeightedVolatility : ℚ
  SharpeRatioVal : ℚ
  KellyUtilization : ℚ
  SectorWeights : List (String × ℚ)
deriving DecidableEq

/-- The accumulator after pass 2 of `CalculatePortfolioMetrics`, run against
the pass-1 total. -/
def pass2Result (stocks : List Stock) (fxRates : List (String × ℚ)) : Pass2Acc :=
  stocks.foldl (pass2Step fxRates ((stocks.map (stockValueEUR fxRates)).sum)) ⟨0, 0, [], 0⟩

/-- Source `CalculatePortfolioMetrics`: two-pass aggregation - total value
first, then value-weighted aggregates against the final total; the Sharpe
ratio divides only when the weighted volatility is positive. -/
def CalculatePortfolioMetrics (stocks : List Stock) (fxRates : List (String × ℚ)) :
    PortfolioMetrics :=
  { TotalValue := (stocks.map (stockValueEUR fxRates)).sum
    OverallEV := (pass2Result stocks fxRates).weightedEV
    WeightedVolatility := (pass2Result stocks fxRates).weightedVolatility
    SharpeRatioVal :=
      if (pass2Result stocks fxRates).weightedVolatility > 0 then
        ((pass2Result stocks fxRates).weightedEV - riskFreeRatePercent) /
          (pass2Result stocks fxRates).weightedVolatility
      else 0
    KellyUtilization := (pass2Result stocks fxRates).kellyUtilization
    SectorWeights := (pass2Result stocks fxRates).sectorWeights }

/-!
Division-guarded ("checked") variants.  `divGuarded` performs a division
only when the divisor is strictly positive; the checked variants reproduce
the source functions with every division site routed through `divGuarded`
(including the divisions by the constants 100 and 2), so
`...Checked = some (...)` states that each division of the source runs under
a guard making its divisor strictly positive.
-/

/-- Division admissible only for a strictly positive divisor. -/
def divGuarded (a b : ℚ) : Option ℚ :=
  if 0 < b then some (a / b) else none

/-- Checked step 2: the only division is by the current price, guarded by
`CurrentPrice > 0`. -/
def upsidePotentialChecked (s : Stock) : Option ℚ :=
  if s.CurrentPrice > 0 ∧ s.FairValue > 0 then
    (divGuarded (s.FairValue - s.CurrentPrice) s.CurrentPrice).map (· * 100)
  else some s.UpsidePotential

/-- Checked step 4: division by the floored downside magnitude. -/
def bRatioChecked (s : Stock) : Option ℚ :=
  divGuarded (upsidePotentialOf s) (downsideMagnitudeOf s)

/-- Checked step 6: division by the b ratio, guarded by `BRatio > 0`. -/
def kellyFractionChecked (s : Stock) : Option ℚ :=
  if bRatioOf s > 0 then
    (divGuarded ((bRatioOf s * sanitizedProbability s) - (1 - sanitizedProbability s))
        (bRatioOf s)).map (fun q => if q * 100 < 0 then 0 else q * 100)
  else some 0

/-- Checked step 9 (intermediate): division by the sanitized probability. -/
def requiredUpsideChecked (s : Stock) : Option ℚ :=
  divGuarded (7 - (1 - sanitizedProbability s) * calibratedDownsideRisk s)
    (sanitizedProbability s)

/-- Checked step 9: divisions by the probability, by 100 and by
`1 + requiredUpside/100` (guarded by `requiredUpside > -100`). -/
def buyZoneChecked (s : Stock) : Option (ℚ × ℚ) :=
  if s.FairValue > 0 ∧ sanitizedProbability s > 0 then do
    let requiredUpside ← requiredUpsideChecked s
    if requiredUpside > -100 then do
      let ruOver100 ← divGuarded requiredUpside 100
      let buyZoneMax ← divGuarded s.FairValue (1 + ruOver100)
      pure (buyZoneMax * (9 / 10), buyZoneMax)
    else pure (s.CurrentPrice * (85 / 100), s.CurrentPrice * (95 / 100))
  else pure (s.BuyZoneMin, s.BuyZoneMax)

/-- Checked threshold solver: the one division is by the denominator, under
the `denominator <= 0` infeasibility check. -/
def solvePriceChecked (fairValue probabilityPositive downsideRisk evThreshold : ℚ) :
    Option (ℚ × Bool) :=
  if evThreshold + 100 * probabilityPositive + (1 - probabilityPositive) * |downsideRisk| ≤ 0
  then some (0, false)
  else do
    let price ← divGuarded (100 * probabilityPositive * fairValue)
      (evThreshold + 100 * probabilityPositive + (1 - probabilityPositive) * |downsideRisk|)
    if price ≤ 0 then pure (0, false) else pure (price, true)

/-- Checked `CalculateMetrics`: every division of the source function routed
through `divGuarded`, assembling the same record. -/
def CalculateMetricsChecked (s : Stock) : Option Stock := do
  let up ← upsidePotentialChecked s
  let b ← bRatioChecked s
  let kelly ← kellyFractionChecked s
  let halfKelly0 ← divGuarded kelly 2
  let buyZone ← buyZoneChecked s
  let trimSolve ← solvePriceChecked s.FairValue (sanitizedProbability s)
    (calibratedDownsideRisk s) 3
  let sellSolve ← solvePriceChecked s.FairValue (sanitizedProbability s)
    (calibratedDownsideRisk s) 0
  let sellZone := assembleSellZone trimSolve sellSolve (expectedValueOf s)
  pure { s with
    DownsideRisk := calibratedDownsideRisk s
    UpsidePotential := up
    ProbabilityPositive := sanitizedProbability s
    BRatioVal := b
    ExpectedValue := expectedValueOf s
    KellyFraction := kelly
    HalfKellySuggested := if halfKelly0 > 15 then 15 else halfKelly0
    Assessment := assessmentOf s
    BuyZoneMin := buyZone.1
    BuyZoneMax := buyZone.2
    SellZoneLowerBound := sellZone.1
    SellZoneUpperBound := sellZone.2.1
    SellZoneStatus := sellZone.2.2 }

/-- Checked pass-1 position value: division by the FX rate, guarded by
`rate > 0`. -/
def stockValueEURChecked (fxRates : List (String × ℚ)) (s : Stock) : Option ℚ :=
  if s.SharesOwned ≤ 0 then some 0
  else if lookupRate fxRates s.Currency ≤ 0 then some 0
  else divGuarded ((s.SharesOwned : ℚ) * s.CurrentPrice) (lookupRate fxRates s.Currency)

/-- Checked pass-1 accumulation of the total value. -/
def totalValueChecked (fxRates : List (String × ℚ)) : List Stock → Option ℚ
  | [] => some 0
  | s :: rest => do
    let v ← stockValueEURChecked fxRates s
    let r ← totalValueChecked fxRates rest
    pure (v + r)

/-- Checked pass-2 step: division by the total value, guarded by
`totalValue > 0`. -/
def pass2StepChecked (fxRates : List (String × ℚ)) (totalValue : ℚ)
    (acc : Pass2Acc) (s : Stock) : Option Pass2Acc :=
  if s.SharesOwned ≤ 0 then some acc
  else if totalValue > 0 ∧ stockValueEUR fxRates s > 0 then do
    let weight ← divGuarded (stockValueEUR fxRates s) totalValue
    pure { weightedEV := acc.weightedEV + s.ExpectedValue * weight
           weightedVolatility := acc.weightedVolatility + s.Volatility * weight
           sectorWeights := addToSectorMap acc.sectorWeights s.Sector (weight * 100)
           kellyUtilization := acc.kellyUtilization + weight * 100 }
  else some acc

/-- Checked `CalculatePortfolioMetrics`: every division of the source routed
through `divGuarded`, including the Sharpe-ratio division guarded by
`weightedVolatility > 0`. -/
def CalculatePortfolioMetricsChecked (stocks : List Stock)
    (fxRates : List (String × ℚ)) : Option PortfolioMetrics := do
  let totalValue ← totalValueChecked fxRates stocks
  let acc ← stocks.foldlM (pass2StepChecked fxRates totalValue) (⟨0, 0, [], 0⟩ : Pass2Acc)
  let sharpe ←
    if acc.weightedVolatility > 0 then
      divGuarded (acc.weightedEV - riskFreeRatePercent) acc.weightedVolatility
    else pure 0
  pure { TotalValue := totalValue
         OverallEV := acc.weightedEV
         WeightedVolatility := acc.weightedVolatility
         SharpeRatioVal := sharpe
         KellyUtilization := acc.kellyUtilization
         SectorWeights := acc.sectorWeights }

/-!
Predicates for the recomputation claim (C1): agreement on the raw input
fields, and agreement on the derived fields after a call.
-/

/-- Two stocks agree on every raw input field of the calculator: identity,
market inputs, probabilistic inputs and position sizing. -/
def rawEq (s t : Stock) : Prop :=
  s.Ticker = t.Ticker ∧ s.Sector = t.Sector ∧ s.Currency = t.Currency ∧
  s.CurrentPrice = t.CurrentPrice ∧ s.FairValue = t.FairValue ∧
  s.Beta = t.Beta ∧ s.ProbabilityPositive = t.ProbabilityPositive ∧
  s.DownsideRisk = t.DownsideRisk ∧ s.SharesOwned = t.SharesOwned ∧
  s.AvgPriceLocal = t.AvgPriceLocal

/-- Two stocks agree on every derived field written by the calculator. -/
def derivedEq (s t : Stock) : Prop :=
  s.UpsidePotential = t.UpsidePotential ∧ s.BRatioVal = t.BRatioVal ∧
  s.ExpectedValue = t.ExpectedValue ∧ s.KellyFraction = t.KellyFraction ∧
  s.HalfKellySuggested = t.HalfKellySuggested ∧ s.Assessment = t.Assessment ∧
  s.BuyZoneMin = t.BuyZoneMin ∧ s.BuyZoneMax = t.BuyZoneMax ∧
  s.SellZoneLowerBound = t.SellZoneLowerBound ∧
  s.SellZoneUpperBound = t.SellZoneUpperBound ∧
  s.SellZoneStatus = t.SellZoneStatus

/-- Sum of the values of a sector-weights map. -/
def sectorWeightSum (m : List (String × ℚ)) : ℚ :=
  (m.map Prod.snd).sum

/-- A zero-initialized stock record (the Go zero value of the struct), used
as the base of concrete test inputs. -/
def baseStock : Stock :=
  { Ticker := "A", Sector := "Tech", Currency := "USD", CurrentPrice := 0,
    FairValue := 0, Beta := 0, ProbabilityPositive := 0, DownsideRisk := 0,
    Volatility := 0, SharesOwned := 0, AvgPriceLocal := 0, UpsidePotential := 0,
    BRatioVal := 0, ExpectedValue := 0, KellyFraction := 0,
    HalfKellySuggested := 0, Assessment := "", BuyZoneMin := 0, BuyZoneMax := 0,
    SellZoneLowerBound := 0, SellZoneUpperBound := 0, SellZoneStatus := "" }

/-- What one position adds to the Kelly utilization (and to its sector
bucket) in pass 2: its weight in percent, or 0 when skipped. -/
def pass2Contribution (fxRates : List (String × ℚ)) (tv : ℚ) (s : Stock) : ℚ :=
  if s.SharesOwned ≤ 0 then 0
  else if tv > 0 ∧ stockValueEUR fxRates s > 0 then
    stockValueEUR fxRates s / tv * 100
  else 0

/-- The all-zero portfolio summary with an empty sector map. -/
def zeroSummary : PortfolioMetrics :=
  { TotalValue := 0, OverallEV := 0, WeightedVolatility := 0, SharpeRatioVal := 0,
    KellyUtilization := 0, SectorWeights := [] }

/-- A rate table with a single USD entry at parity. -/
def usdRates : List (String × ℚ) := [("USD", 1)]

/-- The reference scenario of the repository's tests: beta 1.2, current price
100, fair value 120, everything else unset. -/
def refStock : Stock :=
  { baseStock with CurrentPrice := 100, FairValue := 120, Beta := 6 / 5 }

/-- A sell-zone scenario from the repository's tests: price 340, fair value
380, probability 0.65, downside -15. -/
def sellStock : Stock :=
  { baseStock with CurrentPrice := 340, FairValue := 380, ProbabilityPositive := 13 / 20, DownsideRisk := -15 }

/-- Two owned USD positions, the second with a negative current price. -/
def negPriceStocks : List Stock :=
  [{ baseStock with SharesOwned := 1, CurrentPrice := 100, Sector := "Tech" },
   { baseStock with SharesOwned := 1, CurrentPrice := -50, Sector := "Energy" }]

/-- A degenerate position (zero current price) with the derived
`UpsidePotential` field left at 0. -/
def staleStockA : Stock :=
  { baseStock with FairValue := 120, DownsideRisk := -20 }

/-- The same raw inputs as `staleStockA` but with a stale pre-set
`UpsidePotential` of 50. -/
def staleStockB : Stock :=
  { staleStockA with UpsidePotential := 50 }

/-!
Helper lemmas.
-/

theorem sanitizedProbability_pos (s : Stock) : 0 < sanitizedProbability s := by
  unfold sanitizedProbability
  split_ifs with h
  · norm_num [defaultProbabilityPositive]
  · push_neg at h
    exact h.1

theorem sanitizedProbability_le_one (s : Stock) : sanitizedProbability s ≤ 1 := by
  unfold sanitizedProbability
  split_ifs with h
  · norm_num [defaultProbabilityPositive]
  · push_neg at h
    exact h.2

theorem downsideMagnitudeOf_pos (s : Stock) : 0 < downsideMagnitudeOf s := by
  unfold downsideMagnitudeOf
  split_ifs with h
  · norm_num [minDownsideMagnitude]
  · push_neg at h
    calc (0 : ℚ) < minDownsideMagnitude := by norm_num [minDownsideMagnitude]
    _ ≤ _ := h

theorem solveDenominator_pos (p d t : ℚ) (hp : 0 < p) (hp1 : p ≤ 1) (ht : 0 ≤ t) :
    0 < t + 100 * p + (1 - p) * |d| := by
  have h1 : 0 ≤ (1 - p) * |d| := mul_nonneg (by linarith) (abs_nonneg d)
  nlinarith

/-- Under a valid probability, a non-negative threshold and positive fair
value, the solver succeeds with the closed-form price. -/
theorem solvePriceForEVThreshold_eq (fv p d t : ℚ) (hfv : 0 < fv) (hp : 0 < p)
    (hp1 : p ≤ 1) (ht : 0 ≤ t) :
    solvePriceForEVThreshold fv p d t =
      ((100 * p * fv) / (t + 100 * p + (1 - p) * |d|), true) := by
  have hden := solveDenominator_pos p d t hp hp1 ht
  have hprice : 0 < (100 * p * fv) / (t + 100 * p + (1 - p) * |d|) :=
    div_pos (by positivity) hden
  unfold solvePriceForEVThreshold
  rw [if_neg (not_le.mpr hden), if_neg (not_le.mpr hprice)]

/-- With a non-positive fair value the solver reports infeasible. -/
theorem solvePriceForEVThreshold_infeasible (fv p d t : ℚ) (hfv : fv ≤ 0) (hp : 0 < p)
    (hp1 : p ≤ 1) (ht : 0 ≤ t) :
    solvePriceForEVThreshold fv p d t = (0, false) := by
  have hden := solveDenominator_pos p d t hp hp1 ht
  have hprice : (100 * p * fv) / (t + 100 * p + (1 - p) * |d|) ≤ 0 :=
    div_nonpos_of_nonpos_of_nonneg (by nlinarith) (le_of_lt hden)
  unfold solvePriceForEVThreshold
  rw [if_neg (not_le.mpr hden), if_pos hprice]

theorem calc_DownsideRisk (s : Stock) :
    (CalculateMetrics s).DownsideRisk = calibratedDownsideRisk s := rfl

theorem calc_UpsidePotential (s : Stock) :
    (CalculateMetrics s).UpsidePotential = upsidePotentialOf s := rfl

theorem calc_ProbabilityPositive (s : Stock) :
    (CalculateMetrics s).ProbabilityPositive = sanitizedProbability s := rfl

theorem calc_BRatioVal (s : Stock) :
    (CalculateMetrics s).BRatioVal = bRatioOf s := rfl

theorem calc_ExpectedValue (s : Stock) :
    (CalculateMetrics s).ExpectedValue = expectedValueOf s := rfl

theorem calc_KellyFraction (s : Stock) :
    (CalculateMetrics s).KellyFraction = kellyFractionOf s := rfl

theorem calc_HalfKellySuggested (s : Stock) :
    (CalculateMetrics s).HalfKellySuggested = halfKellySuggestedOf s := rfl

theorem calc_Assessment (s : Stock) :
    (CalculateMetrics s).Assessment = assessmentOf s := rfl

theorem calc_BuyZoneMin (s : Stock) :
    (CalculateMetrics s).BuyZoneMin = (buyZoneOf s).1 := rfl

theorem calc_BuyZoneMax (s : Stock) :
    (CalculateMetrics s).BuyZoneMax = (buyZoneOf s).2 := rfl

theorem calc_SellZoneLowerBound (s : Stock) :
    (CalculateMetrics s).SellZoneLowerBound = (sellZoneOf s).1 := rfl

theorem calc_SellZoneUpperBound (s : Stock) :
    (CalculateMetrics s).SellZoneUpperBound = (sellZoneOf s).2.1 := rfl

theorem calc_SellZoneStatus (s : Stock) :
    (CalculateMetrics s).SellZoneStatus = (sellZoneOf s).2.2 := rfl

/-!
Claim C3: downside-risk calibration.
-/

/-- C3: when the downside-risk input is exactly zero, `CalculateMetrics`
calibrates it from beta (-30 for beta >= 1.5, -25 on [1.0, 1.5), -20 on
[0.5, 1.0), -15 on (0, 0.5), and -20 for beta <= 0); a non-zero downside
input is preserved exactly, regardless of beta. -/
theorem calculateMetrics_downsideRisk_calibration (s : Stock) :
    (s.DownsideRisk = 0 →
      ((3 / 2 ≤ s.Beta → (CalculateMetrics s).DownsideRisk = -30) ∧
       (1 ≤ s.Beta ∧ s.Beta < 3 / 2 → (CalculateMetrics s).DownsideRisk = -25) ∧
       (1 / 2 ≤ s.Beta ∧ s.Beta < 1 → (CalculateMetrics s).DownsideRisk = -20) ∧
       (0 < s.Beta ∧ s.Beta < 1 / 2 → (CalculateMetrics s).DownsideRisk = -15) ∧
       (s.Beta ≤ 0 → (CalculateMetrics s).DownsideRisk = -20))) ∧
    (s.DownsideRisk ≠ 0 → (CalculateMetrics s).DownsideRisk = s.DownsideRisk) := by
  rw [calc_DownsideRisk]
  unfold calibratedDownsideRisk calibrateDownsideRisk
  constructor
  · intro h0
    rw [if_pos h0]
    refine ⟨fun hb => ?_, fun hb => ?_, fun hb => ?_, fun hb => ?_, fun hb => ?_⟩
    · rw [if_pos (by linarith), if_neg (by linarith), if_neg (by linarith),
        if_neg (by linarith)]
    · rw [if_pos (by linarith), if_neg (by linarith [hb.1]), if_neg (by linarith [hb.1]),
        if_pos hb.2]
    · rw [if_pos (by linarith [hb.1]), if_neg (by linarith [hb.1]), if_pos hb.2]
    · rw [if_pos hb.1, if_pos hb.2]
    · rw [if_neg (by linarith)]
  · intro h0
    rw [if_neg h0]

/-- Witness for C3: beta = 1.2 with an unset downside input calibrates
to -25. -/
theorem calculateMetrics_downsideRisk_calibration_witness :
    refStock.DownsideRisk = 0 ∧ (CalculateMetrics refStock).DownsideRisk = -25 := by
  refine ⟨rfl, ?_⟩
  exact (((calculateMetrics_downsideRisk_calibration _).1 rfl).2.1)
    (by norm_num [refStock, baseStock])

/-!
Claim C4: the assessment bands partition the computed EV.
-/

/-- C4: after `CalculateMetrics`, the assessment is a total partition of the
computed expected value: Add iff EV > 7, Hold iff 3 <= EV <= 7, Trim iff
0 <= EV < 3, Sell iff EV < 0. -/
theorem calculateMetrics_assessment_partition (s : Stock) :
    ((CalculateMetrics s).Assessment = "Add" ↔ 7 < (CalculateMetrics s).ExpectedValue) ∧
    ((CalculateMetrics s).Assessment = "Hold" ↔
      3 ≤ (CalculateMetrics s).ExpectedValue ∧ (CalculateMetrics s).ExpectedValue ≤ 7) ∧
    ((CalculateMetrics s).Assessment = "Trim" ↔
      0 ≤ (CalculateMetrics s).ExpectedValue ∧ (CalculateMetrics s).ExpectedValue < 3) ∧
    ((CalculateMetrics s).Assessment = "Sell" ↔ (CalculateMetrics s).ExpectedValue < 0) := by
  rw [calc_Assessment, calc_ExpectedValue]
  have hAH : ("Add" : String) ≠ "Hold" := by decide
  have hAT : ("Add" : String) ≠ "Trim" := by decide
  have hAS : ("Add" : String) ≠ "Sell" := by decide
  have hHA : ("Hold" : String) ≠ "Add" := by decide
  have hHT : ("Hold" : String) ≠ "Trim" := by decide
  have hHS : ("Hold" : String) ≠ "Sell" := by decide
  have hTA : ("Trim" : String) ≠ "Add" := by decide
  have hTH : ("Trim" : String) ≠ "Hold" := by decide
  have hTS : ("Trim" : String) ≠ "Sell" := by decide
  have hSA : ("Sell" : String) ≠ "Add" := by decide
  have hSH : ("Sell" : String) ≠ "Hold" := by decide
  have hST : ("Sell" : String) ≠ "Trim" := by decide
  unfold assessmentOf
  split_ifs with h1 h2 h3
  · have ha : ¬ expectedValueOf s ≤ 7 := not_le.mpr h1
    have hb : ¬ expectedValueOf s < 3 := by linarith
    have hc : ¬ expectedValueOf s < 0 := by linarith
    simp [hAH, hAT, hAS, h1, ha, hb, hc]
  · have ha : ¬ expectedValueOf s < 3 := not_lt.mpr h2.1
    have hb : ¬ expectedValueOf s < 0 := by linarith [h2.1]
    simp [hHA, hHT, hHS, h1, h2.1, h2.2, ha, hb]
  · have ha : ¬ 3 ≤ expectedValueOf s := not_le.mpr h3.2
    have hb : ¬ expectedValueOf s < 0 := not_lt.mpr h3.1
    simp [hTA, hTH, hTS, h1, h3.1, h3.2, ha, hb]
  · have hlt : expectedValueOf s < 0 := by
      push_neg at h1 h2 h3
      rcases lt_or_le (expectedValueOf s) 3 with h | h
      · by_contra hge
        push_neg at hge
        exact absurd (h3 hge) (not_le.mpr h)
      · exact absurd (h2 h) (not_lt.mpr h1)
    have ha : ¬ 7 < expectedValueOf s := by linarith
    have hb : ¬ 3 ≤ expectedValueOf s := by linarith
    have hc : ¬ 0 ≤ expectedValueOf s := not_le.mpr hlt
    simp [hSA, hSH, hST, hlt, ha, hb, hc]

/-!
Claim C5: Kelly fraction and half-Kelly clamping.
-/

/-- C5: after every call, the Kelly fraction is the clamped Kelly formula
when the b ratio is positive and 0 when it is non-positive (hence always
non-negative), and the half-Kelly suggestion is `min(Kelly/2, 15)` (hence
at most 15, and exactly Kelly/2 whenever that is at most 15). -/
theorem calculateMetrics_kelly_clamps (s : Stock) :
    0 ≤ (CalculateMetrics s).KellyFraction ∧
    (0 < (CalculateMetrics s).BRatioVal →
      (CalculateMetrics s).KellyFraction =
        max 0 ((((CalculateMetrics s).BRatioVal * (CalculateMetrics s).ProbabilityPositive) -
          (1 - (CalculateMetrics s).ProbabilityPositive)) /
            (CalculateMetrics s).BRatioVal * 100)) ∧
    ((CalculateMetrics s).BRatioVal ≤ 0 → (CalculateMetrics s).KellyFraction = 0) ∧
    (CalculateMetrics s).HalfKellySuggested = min ((CalculateMetrics s).KellyFraction / 2) 15 ∧
    (CalculateMetrics s).HalfKellySuggested ≤ 15 ∧
    ((CalculateMetrics s).KellyFraction / 2 ≤ 15 →
      (CalculateMetrics s).HalfKellySuggested = (CalculateMetrics s).KellyFraction / 2) := by
  rw [calc_KellyFraction, calc_BRatioVal, calc_HalfKellySuggested, calc_ProbabilityPositive]
  refine ⟨?_, ?_, ?_, ?_, ?_, ?_⟩
  · unfold kellyFractionOf
    split_ifs with h1 h2
    · exact le_refl 0
    · exact not_lt.mp h2
    · exact le_refl 0
  · intro hb
    unfold kellyFractionOf
    rw [if_pos hb]
    split_ifs with h2
    · rw [max_eq_left (le_of_lt h2)]
    · rw [max_eq_right (not_lt.mp h2)]
  · intro hb
    unfold kellyFractionOf
    rw [if_neg (not_lt.mpr hb)]
  · unfold halfKellySuggestedOf
    split_ifs with h
    · rw [min_eq_right (le_of_lt h)]
    · rw [min_eq_left (not_lt.mp h)]
  · unfold halfKellySuggestedOf
    split_ifs with h
    · norm_num
    · exact not_lt.mp h
  · intro hle
    unfold halfKellySuggestedOf
    rw [if_neg (not_lt.mpr hle)]

/-- Witness for C5 at the reference scenario (beta 1.2, price 100, fair value
120): the b ratio is positive and the theorem's clamping equations hold
there. -/
theorem calculateMetrics_kelly_clamps_witness :
    0 < (CalculateMetrics refStock).BRatioVal ∧
    (CalculateMetrics refStock).KellyFraction =
      max 0 ((((CalculateMetrics refStock).BRatioVal *
        (CalculateMetrics refStock).ProbabilityPositive) -
          (1 - (CalculateMetrics refStock).ProbabilityPositive)) /
            (CalculateMetrics refStock).BRatioVal * 100) := by
  have hb : 0 < (CalculateMetrics refStock).BRatioVal := by
    rw [calc_BRatioVal]
    norm_num [bRatioOf, upsidePotentialOf, downsideMagnitudeOf, calibratedDownsideRisk,
      calibrateDownsideRisk, minDownsideMagnitude, refStock, baseStock]
  exact ⟨hb, (calculateMetrics_kelly_clamps _).2.1 hb⟩

/-!
Claim C8: validation of the standalone zone-query entry points.
-/

/-- C8: `CalculateBuyZoneResult` and `CalculateSellZoneResult` return an
error exactly when the probability is outside [0, 1], the downside risk is
non-negative, or the fair value is non-positive; on every tuple passing
those checks the error is nil (infeasibility is a status string only). -/
theorem zoneResults_validation (ticker : String) (fv p d cp : ℚ) :
    ((CalculateBuyZoneResult ticker fv p d cp).2.isSome ↔
      (p < 0 ∨ 1 < p ∨ 0 ≤ d ∨ fv ≤ 0)) ∧
    ((CalculateSellZoneResult ticker fv p d cp).2.isSome ↔
      (p < 0 ∨ 1 < p ∨ 0 ≤ d ∨ fv ≤ 0)) := by
  constructor
  · simp only [CalculateBuyZoneResult]
    split_ifs with h1 h2 h3 h4 h5 h6 <;> simp <;> push_neg at * <;> tauto
  · simp only [CalculateSellZoneResult]
    split_ifs with h1 h2 h3 h4 h5 <;> simp <;> push_neg at * <;> tauto

/-!
Claim C2: buy-zone round-trip through the forward EV formula, and agreement
of the inline inversion with the shared threshold solver.
-/

/-- Algebraic core of the round-trip: evaluating the forward EV formula at
the inverted price reproduces the target threshold 7 exactly. -/
theorem roundtrip_ev (fv p d : ℚ) (hfv : 0 < fv) (hp : 0 < p)
    (hru : (7 - (1 - p) * d) / p > -100) :
    expectedValueAtPrice fv p d (fv / (1 + ((7 - (1 - p) * d) / p) / 100)) = 7 := by
  have hden : (0 : ℚ) < 1 + ((7 - (1 - p) * d) / p) / 100 := by linarith
  have hP : 0 < fv / (1 + ((7 - (1 - p) * d) / p) / 100) := div_pos hfv hden
  unfold expectedValueAtPrice
  rw [if_neg (not_le.mpr hP)]
  have h1 : p ≠ 0 := ne_of_gt hp
  have h2 : fv ≠ 0 := ne_of_gt hfv
  have h3 : (1 + ((7 - (1 - p) * d) / p) / 100) ≠ 0 := ne_of_gt hden
  have h0 : -100 * p < 7 - (1 - p) * d := by
    have := (lt_div_iff₀ hp).mp hru
    linarith
  have h4 : (p * 100 + (7 - (1 - p) * d)) ≠ 0 := ne_of_gt (by linarith)
  have e1 : (fv - fv / (1 + ((7 - (1 - p) * d) / p) / 100)) /
      (fv / (1 + ((7 - (1 - p) * d) / p) / 100)) =
      (1 + ((7 - (1 - p) * d) / p) / 100) - 1 := by
    field_simp
    ring
  rw [e1]
  have e2 : ((1 + ((7 - (1 - p) * d) / p) / 100) - 1) * 100 = (7 - (1 - p) * d) / p := by
    ring
  rw [e2, mul_comm p ((7 - (1 - p) * d) / p), div_mul_cancel₀ _ h1]
  ring

/-- Agreement of the inline buy-zone inversion with the shared threshold
solver at target 7, for a strictly negative downside risk. -/
theorem buyZoneMax_eq_solver (fv p d : ℚ) (hfv : 0 < fv) (hp : 0 < p)
    (hp1 : p ≤ 1) (hd : d < 0) :
    solvePriceForEVThreshold fv p d 7 =
      (fv / (1 + ((7 - (1 - p) * d) / p) / 100), true) := by
  rw [solvePriceForEVThreshold_eq fv p d 7 hfv hp hp1 (by norm_num), abs_of_neg hd]
  have hden1 : (0 : ℚ) < 7 + 100 * p + (1 - p) * (-d) := by nlinarith
  have hrupos : 0 < (7 - (1 - p) * d) / p := div_pos (by nlinarith) hp
  have hden2 : (0 : ℚ) < 1 + ((7 - (1 - p) * d) / p) / 100 := by linarith
  simp only [Prod.mk.injEq]
  refine ⟨?_, trivial⟩
  have h1 : p ≠ 0 := ne_of_gt hp
  have h2 : (7 + 100 * p + (1 - p) * (-d)) ≠ 0 := ne_of_gt hden1
  have h3 : (1 + ((7 - (1 - p) * d) / p) / 100) ≠ 0 := ne_of_gt hden2
  rw [div_eq_div_iff h2 h3]
  field_simp
  ring

/-- C2: for a stock with positive fair value taking the non-fallback
buy-zone branch, feeding the computed `BuyZoneMax` back through
`expectedValueAtPrice` (at the sanitized probability and calibrated downside
risk) reproduces the 7% target exactly, and - when the downside risk is
negative - `BuyZoneMax` is exactly the shared threshold-solver price at
target 7. -/
theorem calculateMetrics_buyZone_roundtrip (s : Stock) (hfv : 0 < s.FairValue)
    (hru : requiredUpsideOf s > -100) :
    expectedValueAtPrice s.FairValue (CalculateMetrics s).ProbabilityPositive
      (CalculateMetrics s).DownsideRisk (CalculateMetrics s).BuyZoneMax = 7 ∧
    ((CalculateMetrics s).DownsideRisk < 0 →
      solvePriceForEVThreshold s.FairValue (CalculateMetrics s).ProbabilityPositive
        (CalculateMetrics s).DownsideRisk 7 = ((CalculateMetrics s).BuyZoneMax, true)) := by
  rw [calc_ProbabilityPositive, calc_DownsideRisk, calc_BuyZoneMax]
  have hp := sanitizedProbability_pos s
  have hp1 := sanitizedProbability_le_one s
  have hbz : (buyZoneOf s).2 = s.FairValue / (1 + requiredUpsideOf s / 100) := by
    unfold buyZoneOf
    rw [if_pos ⟨hfv, hp⟩, if_pos hru]
  rw [hbz]
  constructor
  · exact roundtrip_ev _ _ _ hfv hp hru
  · intro hd
    exact buyZoneMax_eq_solver _ _ _ hfv hp hp1 hd

/-- Witness for C2 at the reference scenario: fair value 120 is positive,
the branch condition holds, and the round-trip yields exactly 7. -/
theorem calculateMetrics_buyZone_roundtrip_witness :
    0 < refStock.FairValue ∧ requiredUpsideOf refStock > -100 ∧
    expectedValueAtPrice refStock.FairValue (CalculateMetrics refStock).ProbabilityPositive
      (CalculateMetrics refStock).DownsideRisk (CalculateMetrics refStock).BuyZoneMax = 7 := by
  have hfv : 0 < refStock.FairValue := by norm_num [refStock, baseStock]
  have hru : requiredUpsideOf refStock > -100 := by
    norm_num [requiredUpsideOf, sanitizedProbability, calibratedDownsideRisk,
      calibrateDownsideRisk, defaultProbabilityPositive, refStock, baseStock]
  exact ⟨hfv, hru, (calculateMetrics_buyZone_roundtrip refStock hfv hru).1⟩

/-!
Claim C10: the sell-zone outcome is decided solely by the sign of the fair
value.
-/

theorem assembleSellZone_true (lo hi ev : ℚ) :
    assembleSellZone (lo, true) (hi, true) ev =
      if lo < hi then
        (lo, hi,
          if ev > 3 then "Below sell zone"
          else if ev > 0 then "In trim zone"
          else "In sell zone")
      else (0, 0, "no sell zone") := rfl

theorem assembleSellZone_failed (x : ℚ) (b : ℚ × Bool) (ev : ℚ) :
    assembleSellZone (x, false) b ev = (0, 0, "no sell zone") := by
  unfold assembleSellZone
  rcases b with ⟨y, by2⟩
  cases by2 <;> rfl

/-- C10: after `CalculateMetrics`, if the fair value is positive then both
sell-zone threshold solves succeed, the bounds are the solved prices with
0 < lower < upper strictly, and the status is one of the three in-range
labels; if the fair value is non-positive, both bounds are 0 and the status
is "no sell zone". -/
theorem calculateMetrics_sellZone_dichotomy (s : Stock) :
    (0 < s.FairValue →
      (solvePriceForEVThreshold s.FairValue (CalculateMetrics s).ProbabilityPositive
        (CalculateMetrics s).DownsideRisk 3).2 = true ∧
      (solvePriceForEVThreshold s.FairValue (CalculateMetrics s).ProbabilityPositive
        (CalculateMetrics s).DownsideRisk 0).2 = true ∧
      0 < (CalculateMetrics s).SellZoneLowerBound ∧
      (CalculateMetrics s).SellZoneLowerBound < (CalculateMetrics s).SellZoneUpperBound ∧
      (CalculateMetrics s).SellZoneLowerBound =
        (solvePriceForEVThreshold s.FairValue (CalculateMetrics s).ProbabilityPositive
          (CalculateMetrics s).DownsideRisk 3).1 ∧
      (CalculateMetrics s).SellZoneUpperBound =
        (solvePriceForEVThreshold s.FairValue (CalculateMetrics s).ProbabilityPositive
          (CalculateMetrics s).DownsideRisk 0).1 ∧
      ((CalculateMetrics s).SellZoneStatus = "Below sell zone" ∨
       (CalculateMetrics s).SellZoneStatus = "In trim zone" ∨
       (CalculateMetrics s).SellZoneStatus = "In sell zone")) ∧
    (s.FairValue ≤ 0 →
      (CalculateMetrics s).SellZoneLowerBound = 0 ∧
      (CalculateMetrics s).SellZoneUpperBound = 0 ∧
      (CalculateMetrics s).SellZoneStatus = "no sell zone") := by
  rw [calc_ProbabilityPositive, calc_DownsideRisk, calc_SellZoneLowerBound,
    calc_SellZoneUpperBound, calc_SellZoneStatus]
  have hp := sanitizedProbability_pos s
  have hp1 := sanitizedProbability_le_one s
  constructor
  · intro hfv
    have h3 := solvePriceForEVThreshold_eq s.FairValue (sanitizedProbability s)
      (calibratedDownsideRisk s) 3 hfv hp hp1 (by norm_num)
    have h0 := solvePriceForEVThreshold_eq s.FairValue (sanitizedProbability s)
      (calibratedDownsideRisk s) 0 hfv hp hp1 (le_refl 0)
    have hnum : 0 < 100 * sanitizedProbability s * s.FairValue := by positivity
    have hd3 : 0 < 3 + 100 * sanitizedProbability s +
        (1 - sanitizedProbability s) * |calibratedDownsideRisk s| :=
      solveDenominator_pos _ _ 3 hp hp1 (by norm_num)
    have hd0 : 0 < 0 + 100 * sanitizedProbability s +
        (1 - sanitizedProbability s) * |calibratedDownsideRisk s| :=
      solveDenominator_pos _ _ 0 hp hp1 (le_refl 0)
    have hlt : (100 * sanitizedProbability s * s.FairValue) /
        (3 + 100 * sanitizedProbability s +
          (1 - sanitizedProbability s) * |calibratedDownsideRisk s|) <
        (100 * sanitizedProbability s * s.FairValue) /
        (0 + 100 * sanitizedProbability s +
          (1 - sanitizedProbability s) * |calibratedDownsideRisk s|) :=
      div_lt_div_of_pos_left hnum hd0 (by linarith)
    have hposlo : 0 < (100 * sanitizedProbability s * s.FairValue) /
        (3 + 100 * sanitizedProbability s +
          (1 - sanitizedProbability s) * |calibratedDownsideRisk s|) :=
      div_pos hnum hd3
    unfold sellZoneOf
    rw [h3, h0, assembleSellZone_true, if_pos hlt]
    refine ⟨rfl, rfl, hposlo, hlt, rfl, rfl, ?_⟩
    split_ifs <;> simp
  · intro hfv
    have h3 := solvePriceForEVThreshold_infeasible s.FairValue (sanitizedProbability s)
      (calibratedDownsideRisk s) 3 hfv hp hp1 (by norm_num)
    have h0 := solvePriceForEVThreshold_infeasible s.FairValue (sanitizedProbability s)
      (calibratedDownsideRisk s) 0 hfv hp hp1 (le_refl 0)
    unfold sellZoneOf
    rw [h3, h0, assembleSellZone_failed]
    exact ⟨rfl, rfl, rfl⟩

/-- Witness for C10: the sell-zone scenario (fair value 380) gets strict
positive ordered bounds, and the zero stock (fair value 0) gets the empty
sell zone. -/
theorem calculateMetrics_sellZone_dichotomy_witness :
    (0 < sellStock.FairValue ∧
      0 < (CalculateMetrics sellStock).SellZoneLowerBound ∧
      (CalculateMetrics sellStock).SellZoneLowerBound <
        (CalculateMetrics sellStock).SellZoneUpperBound) ∧
    (baseStock.FairValue ≤ 0 ∧
      (CalculateMetrics baseStock).SellZoneStatus = "no sell zone") := by
  have h1 : 0 < sellStock.FairValue := by norm_num [sellStock, baseStock]
  have h2 : baseStock.FairValue ≤ 0 := by norm_num [baseStock]
  obtain ⟨-, -, hlo, hlt, -, -, -⟩ := (calculateMetrics_sellZone_dichotomy sellStock).1 h1
  obtain ⟨-, -, hst⟩ := (calculateMetrics_sellZone_dichotomy baseStock).2 h2
  exact ⟨⟨h1, hlo, hlt⟩, h2, hst⟩

/-!
Claim C1: derived fields are recomputed from raw inputs.  False as stated:
with a non-positive current price the source keeps the stale
`UpsidePotential` (and, with a non-positive fair value, the stale buy-zone
bounds), so pre-set derived values leak into the outputs.  The property
holds once current price and fair value are positive.
-/

/-- C1 counterexample: two stocks agreeing on every raw input (current price
0, fair value 120) but differing in the pre-set `UpsidePotential` produce
different derived fields. -/
theorem calculateMetrics_recompute_counterexample :
    rawEq staleStockA staleStockB ∧
    ¬ derivedEq (CalculateMetrics staleStockA) (CalculateMetrics staleStockB) := by
  constructor
  · exact ⟨rfl, rfl, rfl, rfl, rfl, rfl, rfl, rfl, rfl, rfl⟩
  · intro h
    have h1 := h.1
    rw [calc_UpsidePotential, calc_UpsidePotential] at h1
    norm_num [upsidePotentialOf, staleStockA, staleStockB, baseStock] at h1

/-- C1 (amended): for stocks with positive current price and positive fair
value, agreement on the raw inputs forces agreement of every derived field
after `CalculateMetrics`, whatever the pre-set derived values were. -/
theorem calculateMetrics_recompute_from_raw (s t : Stock) (hraw : rawEq s t)
    (hcp : 0 < s.CurrentPrice) (hfv : 0 < s.FairValue) :
    derivedEq (CalculateMetrics s) (CalculateMetrics t) := by
  obtain ⟨hTicker, hSector, hCurrency, hCP, hFV, hBeta, hProb, hDR, hShares, hAvg⟩ := hraw
  have e1 : calibratedDownsideRisk s = calibratedDownsideRisk t := by
    unfold calibratedDownsideRisk
    rw [hDR, hBeta]
  have e2 : upsidePotentialOf s = upsidePotentialOf t := by
    unfold upsidePotentialOf
    rw [if_pos ⟨hcp, hfv⟩, if_pos ⟨hCP ▸ hcp, hFV ▸ hfv⟩, hCP, hFV]
  have e3 : sanitizedProbability s = sanitizedProbability t := by
    unfold sanitizedProbability
    rw [hProb]
  have e4 : downsideMagnitudeOf s = downsideMagnitudeOf t := by
    unfold downsideMagnitudeOf
    rw [e1]
  have e5 : bRatioOf s = bRatioOf t := by
    unfold bRatioOf
    rw [e2, e4]
  have e6 : expectedValueOf s = expectedValueOf t := by
    unfold expectedValueOf
    rw [e2, e3, e1]
  have e7 : kellyFractionOf s = kellyFractionOf t := by
    unfold kellyFractionOf
    rw [e5, e3]
  have e8 : halfKellySuggestedOf s = halfKellySuggestedOf t := by
    unfold halfKellySuggestedOf
    rw [e7]
  have e9 : assessmentOf s = assessmentOf t := by
    unfold assessmentOf
    rw [e6]
  have e10 : requiredUpsideOf s = requiredUpsideOf t := by
    unfold requiredUpsideOf
    rw [e3, e1]
  have hcs : s.FairValue > 0 ∧ sanitizedProbability s > 0 := ⟨hfv, sanitizedProbability_pos s⟩
  have hct : t.FairValue > 0 ∧ sanitizedProbability t > 0 :=
    ⟨hFV ▸ hfv, sanitizedProbability_pos t⟩
  have e11 : buyZoneOf s = buyZoneOf t := by
    unfold buyZoneOf
    rw [if_pos hcs, if_pos hct, e10, hFV, hCP]
  have e12 : sellZoneOf s = sellZoneOf t := by
    unfold sellZoneOf
    rw [hFV, e3, e1, e6]
  refine ⟨?_, ?_, ?_, ?_, ?_, ?_, ?_, ?_, ?_, ?_, ?_⟩
  · rw [calc_UpsidePotential, calc_UpsidePotential, e2]
  · rw [calc_BRatioVal, calc_BRatioVal, e5]
  · rw [calc_ExpectedValue, calc_ExpectedValue, e6]
  · rw [calc_KellyFraction, calc_KellyFraction, e7]
  · rw [calc_HalfKellySuggested, calc_HalfKellySuggested, e8]
  · rw [calc_Assessment, calc_Assessment, e9]
  · rw [calc_BuyZoneMin, calc_BuyZoneMin, e11]
  · rw [calc_BuyZoneMax, calc_BuyZoneMax, e11]
  · rw [calc_SellZoneLowerBound, calc_SellZoneLowerBound, e12]
  · rw [calc_SellZoneUpperBound, calc_SellZoneUpperBound, e12]
  · rw [calc_SellZoneStatus, calc_SellZoneStatus, e12]

/-- Witness for the amended C1 at the reference scenario against a copy with
a stale pre-set upside of 99. -/
theorem calculateMetrics_recompute_from_raw_witness :
    rawEq refStock { refStock with UpsidePotential := 99 } ∧
    0 < refStock.CurrentPrice ∧ 0 < refStock.FairValue ∧
    derivedEq (CalculateMetrics refStock)
      (CalculateMetrics { refStock with UpsidePotential := 99 }) := by
  have h1 : rawEq refStock { refStock with UpsidePotential := 99 } :=
    ⟨rfl, rfl, rfl, rfl, rfl, rfl, rfl, rfl, rfl, rfl⟩
  have h2 : 0 < refStock.CurrentPrice := by norm_num [refStock, baseStock]
  have h3 : 0 < refStock.FairValue := by norm_num [refStock, baseStock]
  exact ⟨h1, h2, h3, calculateMetrics_recompute_from_raw _ _ h1 h2 h3⟩

/-!
Claim C9: the calculators are total and every division runs under a guard
making its divisor strictly positive.
-/

theorem divGuarded_of_pos (a b : ℚ) (h : 0 < b) : divGuarded a b = some (a / b) := by
  unfold divGuarded
  rw [if_pos h]

theorem upsidePotentialChecked_eq (s : Stock) :
    upsidePotentialChecked s = some (upsidePotentialOf s) := by
  unfold upsidePotentialChecked upsidePotentialOf
  split_ifs with h
  · rw [divGuarded_of_pos _ _ h.1]
    rfl
  · rfl

theorem bRatioChecked_eq (s : Stock) : bRatioChecked s = some (bRatioOf s) := by
  unfold bRatioChecked bRatioOf
  exact divGuarded_of_pos _ _ (downsideMagnitudeOf_pos s)

theorem kellyFractionChecked_eq (s : Stock) :
    kellyFractionChecked s = some (kellyFractionOf s) := by
  unfold kellyFractionChecked kellyFractionOf
  by_cases h : bRatioOf s > 0
  · rw [if_pos h, if_pos h, divGuarded_of_pos _ _ h]
    rfl
  · rw [if_neg h, if_neg h]

theorem requiredUpsideChecked_eq (s : Stock) :
    requiredUpsideChecked s = some (requiredUpsideOf s) := by
  unfold requiredUpsideChecked requiredUpsideOf
  exact divGuarded_of_pos _ _ (sanitizedProbability_pos s)

theorem buyZoneChecked_eq (s : Stock) : buyZoneChecked s = some (buyZoneOf s) := by
  unfold buyZoneChecked buyZoneOf
  by_cases h : s.FairValue > 0 ∧ sanitizedProbability s > 0
  · rw [if_pos h, if_pos h]
    by_cases hru : requiredUpsideOf s > -100
    · have hden : (0 : ℚ) < 1 + requiredUpsideOf s / 100 := by linarith
      simp [requiredUpsideChecked_eq, hru,
        divGuarded_of_pos _ _ (show (0 : ℚ) < 100 by norm_num),
        divGuarded_of_pos _ _ hden]
    · simp [requiredUpsideChecked_eq, hru]
  · rw [if_neg h, if_neg h]
    rfl

theorem solvePriceChecked_eq (fv p d t : ℚ) :
    solvePriceChecked fv p d t = some (solvePriceForEVThreshold fv p d t) := by
  unfold solvePriceChecked solvePriceForEVThreshold
  split_ifs with h h1
  · rfl
  · rw [divGuarded_of_pos _ _ (not_le.mp h)]
    simp [h1]
  · rw [divGuarded_of_pos _ _ (not_le.mp h)]
    simp [h1]

theorem calculateMetricsChecked_eq (s : Stock) :
    CalculateMetricsChecked s = some (CalculateMetrics s) := by
  have h2 : divGuarded (kellyFractionOf s) 2 = some (kellyFractionOf s / 2) :=
    divGuarded_of_pos _ _ (by norm_num)
  unfold CalculateMetricsChecked
  simp [upsidePotentialChecked_eq, bRatioChecked_eq, kellyFractionChecked_eq, h2,
    buyZoneChecked_eq, solvePriceChecked_eq, CalculateMetrics, halfKellySuggestedOf,
    sellZoneOf]

theorem stockValueEURChecked_eq (fxRates : List (String × ℚ)) (s : Stock) :
    stockValueEURChecked fxRates s = some (stockValueEUR fxRates s) := by
  unfold stockValueEURChecked stockValueEUR
  split_ifs with h h1
  · rfl
  · rfl
  · exact divGuarded_of_pos _ _ (not_le.mp h1)

theorem totalValueChecked_eq (fxRates : List (String × ℚ)) (l : List Stock) :
    totalValueChecked fxRates l = some ((l.map (stockValueEUR fxRates)).sum) := by
  induction l with
  | nil => rfl
  | cons s rest ih =>
    unfold totalValueChecked
    rw [stockValueEURChecked_eq]
    simp [ih]

theorem pass2StepChecked_eq (fxRates : List (String × ℚ)) (tv : ℚ) (acc : Pass2Acc)
    (s : Stock) : pass2StepChecked fxRates tv acc s = some (pass2Step fxRates tv acc s) := by
  unfold pass2StepChecked pass2Step
  split_ifs with h h1
  · rfl
  · rw [divGuarded_of_pos _ _ h1.1]
    rfl
  · rfl

theorem foldlM_option_eq_foldl {σ α : Type} (f : σ → α → Option σ) (g : σ → α → σ)
    (h : ∀ acc a, f acc a = some (g acc a)) (l : List α) :
    ∀ acc : σ, l.foldlM f acc = some (l.foldl g acc) := by
  induction l with
  | nil => intro acc; rfl
  | cons a rest ih =>
    intro acc
    rw [List.foldlM_cons, h acc a]
    simp [ih (g acc a)]

theorem calculatePortfolioMetricsChecked_eq (stocks : List Stock)
    (fxRates : List (String × ℚ)) :
    CalculatePortfolioMetricsChecked stocks fxRates =
      some (CalculatePortfolioMetrics stocks fxRates) := by
  have htv := totalValueChecked_eq fxRates stocks
  have hfold := foldlM_option_eq_foldl
    (pass2StepChecked fxRates ((stocks.map (stockValueEUR fxRates)).sum))
    (pass2Step fxRates ((stocks.map (stockValueEUR fxRates)).sum))
    (pass2StepChecked_eq fxRates _) stocks (⟨0, 0, [], 0⟩ : Pass2Acc)
  unfold CalculatePortfolioMetricsChecked CalculatePortfolioMetrics pass2Result
  rw [htv]
  by_cases hv : (stocks.foldl
      (pass2Step fxRates ((stocks.map (stockValueEUR fxRates)).sum))
      (⟨0, 0, [], 0⟩ : Pass2Acc)).weightedVolatility > 0
  · simp [hfold, hv, divGuarded_of_pos _ _ hv]
  · simp [hfold, hv]

/-- C9: `CalculateMetrics` and `CalculatePortfolioMetrics` are total: the
division-guarded variants, in which every division of the source is
admissible only for a strictly positive divisor, always succeed and return
exactly the unguarded result - so no division ever runs with a
non-positive divisor and every call completes. -/
theorem calculationEngine_total_guarded :
    (∀ s : Stock, CalculateMetricsChecked s = some (CalculateMetrics s)) ∧
    (∀ (stocks : List Stock) (fxRates : List (String × ℚ)),
      CalculatePortfolioMetricsChecked stocks fxRates =
        some (CalculatePortfolioMetrics stocks fxRates)) :=
  ⟨calculateMetricsChecked_eq, calculatePortfolioMetricsChecked_eq⟩

/-!
Claim C6: total-value formula and exclusion of non-owned / unrated positions.
-/

theorem stockValueEUR_eq_if (fxRates : List (String × ℚ)) (s : Stock) :
    stockValueEUR fxRates s =
      if 0 < s.SharesOwned ∧ 0 < lookupRate fxRates s.Currency then
        (s.SharesOwned : ℚ) * s.CurrentPrice / lookupRate fxRates s.Currency
      else 0 := by
  unfold stockValueEUR
  by_cases h1 : s.SharesOwned ≤ 0
  · rw [if_pos h1, if_neg (fun hc => absurd hc.1 (not_lt.mpr h1))]
  · by_cases h2 : lookupRate fxRates s.Currency ≤ 0
    · rw [if_neg h1, if_pos h2, if_neg (fun hc => absurd hc.2 (not_lt.mpr h2))]
    · rw [if_neg h1, if_neg h2, if_pos ⟨not_le.mp h1, not_le.mp h2⟩]

theorem stockValueEUR_excluded (fxRates : List (String × ℚ)) (s : Stock)
    (h : s.SharesOwned ≤ 0 ∨ lookupRate fxRates s.Currency ≤ 0) :
    stockValueEUR fxRates s = 0 := by
  unfold stockValueEUR
  rcases h with h | h
  · rw [if_pos h]
  · by_cases h1 : s.SharesOwned ≤ 0
    · rw [if_pos h1]
    · rw [if_neg h1, if_pos h]

theorem pass2Step_excluded (fxRates : List (String × ℚ)) (tv : ℚ) (acc : Pass2Acc)
    (s : Stock) (h : s.SharesOwned ≤ 0 ∨ lookupRate fxRates s.Currency ≤ 0) :
    pass2Step fxRates tv acc s = acc := by
  unfold pass2Step
  rcases h with h | h
  · rw [if_pos h]
  · by_cases h1 : s.SharesOwned ≤ 0
    · rw [if_pos h1]
    · rw [if_neg h1, if_neg (fun hc =>
        absurd ((stockValueEUR_excluded fxRates s (Or.inr h)) ▸ hc.2) (lt_irrefl 0))]

/-- C6: the total value is the sum, over exactly the positions with positive
shares and a positive FX rate, of `shares * currentPrice / rate`; and a
position with non-positive shares or a missing/non-positive rate contributes
nothing at all - removing it leaves the entire summary (total value and
every weighted aggregate) unchanged, with no error. -/
theorem portfolio_totalValue_and_exclusion :
    (∀ (stocks : List Stock) (fxRates : List (String × ℚ)),
      (CalculatePortfolioMetrics stocks fxRates).TotalValue =
        (stocks.map (fun s =>
          if 0 < s.SharesOwned ∧ 0 < lookupRate fxRates s.Currency then
            (s.SharesOwned : ℚ) * s.CurrentPrice / lookupRate fxRates s.Currency
          else 0)).sum) ∧
    (∀ (pre post : List Stock) (s : Stock) (fxRates : List (String × ℚ)),
      (s.SharesOwned ≤ 0 ∨ lookupRate fxRates s.Currency ≤ 0) →
      CalculatePortfolioMetrics (pre ++ s :: post) fxRates =
        CalculatePortfolioMetrics (pre ++ post) fxRates) := by
  constructor
  · intro stocks fxRates
    have h : stockValueEUR fxRates = fun s =>
        if 0 < s.SharesOwned ∧ 0 < lookupRate fxRates s.Currency then
          (s.SharesOwned : ℚ) * s.CurrentPrice / lookupRate fxRates s.Currency
        else 0 := funext (stockValueEUR_eq_if fxRates)
    show (stocks.map (stockValueEUR fxRates)).sum = _
    rw [h]
  · intro pre post s fxRates hex
    have hval := stockValueEUR_excluded fxRates s hex
    have htv : ((pre ++ s :: post).map (stockValueEUR fxRates)).sum =
        ((pre ++ post).map (stockValueEUR fxRates)).sum := by
      simp [hval]
    have hfold : ∀ (tv : ℚ) (init : Pass2Acc),
        (pre ++ s :: post).foldl (pass2Step fxRates tv) init =
        (pre ++ post).foldl (pass2Step fxRates tv) init := by
      intro tv init
      rw [List.foldl_append, List.foldl_append, List.foldl_cons,
        pass2Step_excluded fxRates tv _ s hex]
    have hp2 : pass2Result (pre ++ s :: post) fxRates = pass2Result (pre ++ post) fxRates := by
      unfold pass2Result
      rw [htv, hfold]
    unfold CalculatePortfolioMetrics
    rw [htv, hp2]

/-- Witness for C6: a two-position portfolio where the second position has a
missing rate contributes only the first position's value, and removing an
unrated position leaves the summary unchanged. -/
theorem portfolio_totalValue_and_exclusion_witness :
    ((({ baseStock with SharesOwned := 2, CurrentPrice := 50 } : Stock).SharesOwned ≤ 0 ∨
      lookupRate [] ({ baseStock with SharesOwned := 2, CurrentPrice := 50 } : Stock).Currency ≤ 0) ∧
     CalculatePortfolioMetrics [{ baseStock with SharesOwned := 2, CurrentPrice := 50 }] [] =
       CalculatePortfolioMetrics [] []) ∧
    (CalculatePortfolioMetrics [{ baseStock with SharesOwned := 2, CurrentPrice := 50 }] []).TotalValue = 0 := by
  have hex : (({ baseStock with SharesOwned := 2, CurrentPrice := 50 } : Stock).SharesOwned ≤ 0 ∨
      lookupRate [] ({ baseStock with SharesOwned := 2, CurrentPrice := 50 } : Stock).Currency ≤ 0) := by
    right
    norm_num [lookupRate, baseStock]
  refine ⟨⟨hex, ?_⟩, ?_⟩
  · exact portfolio_totalValue_and_exclusion.2 [] []
      { baseStock with SharesOwned := 2, CurrentPrice := 50 } [] hex
  · rw [portfolio_totalValue_and_exclusion.1]
    norm_num [lookupRate, baseStock]

/-!
Claim C7: sector weights sum to the Kelly utilization (= 100) when the total
value is positive; empty and all-excluded portfolios give the zero summary.
False as stated: a position with negative current price contributes its
negative value to the total but is excluded from pass 2, inflating the
remaining weights; adding a non-negative-price requirement repairs it.
-/

theorem sectorWeightSum_addToSectorMap (m : List (String × ℚ)) (k : String) (v : ℚ) :
    sectorWeightSum (addToSectorMap m k v) = sectorWeightSum m + v := by
  induction m with
  | nil => simp [addToSectorMap, sectorWeightSum]
  | cons p rest ih =>
    rcases p with ⟨k', w⟩
    unfold addToSectorMap
    split_ifs with h
    · simp only [sectorWeightSum, List.map_cons, List.sum_cons]
      ring
    · simp only [sectorWeightSum, List.map_cons, List.sum_cons] at ih ⊢
      rw [ih]
      ring

theorem pass2Step_kelly (fxRates : List (String × ℚ)) (tv : ℚ) (acc : Pass2Acc)
    (s : Stock) :
    (pass2Step fxRates tv acc s).kellyUtilization =
      acc.kellyUtilization + pass2Contribution fxRates tv s := by
  unfold pass2Step pass2Contribution
  split_ifs with h1 h2 <;> simp

theorem pass2Step_sector (fxRates : List (String × ℚ)) (tv : ℚ) (acc : Pass2Acc)
    (s : Stock) :
    sectorWeightSum (pass2Step fxRates tv acc s).sectorWeights =
      sectorWeightSum acc.sectorWeights + pass2Contribution fxRates tv s := by
  unfold pass2Step pass2Contribution
  split_ifs with h1 h2 <;> simp [sectorWeightSum_addToSectorMap]

theorem pass2_fold_kelly (fxRates : List (String × ℚ)) (tv : ℚ) (l : List Stock) :
    ∀ acc : Pass2Acc,
      (l.foldl (pass2Step fxRates tv) acc).kellyUtilization =
        acc.kellyUtilization + (l.map (pass2Contribution fxRates tv)).sum := by
  induction l with
  | nil => intro acc; simp
  | cons a rest ih =>
    intro acc
    simp only [List.foldl_cons, List.map_cons, List.sum_cons]
    rw [ih, pass2Step_kelly]
    ring

theorem pass2_fold_sector (fxRates : List (String × ℚ)) (tv : ℚ) (l : List Stock) :
    ∀ acc : Pass2Acc,
      sectorWeightSum (l.foldl (pass2Step fxRates tv) acc).sectorWeights =
        sectorWeightSum acc.sectorWeights + (l.map (pass2Contribution fxRates tv)).sum := by
  induction l with
  | nil => intro acc; simp
  | cons a rest ih =>
    intro acc
    simp only [List.foldl_cons, List.map_cons, List.sum_cons]
    rw [ih, pass2Step_sector]
    ring

theorem sum_map_div_mul (l : List Stock) (f : Stock → ℚ) (T : ℚ) :
    (l.map (fun s => f s / T * 100)).sum = (l.map f).sum / T * 100 := by
  induction l with
  | nil => simp
  | cons a rest ih =>
    simp only [List.map_cons, List.sum_cons]
    rw [ih, add_div, add_mul]

/-- C7 counterexample: with all rates positive but one owned position at a
negative price, the total value is positive yet the sector weights sum to
200, not 100 (outside any +-0.1 tolerance). -/
theorem portfolio_sectorWeights_counterexample :
    (∀ s ∈ negPriceStocks, 0 < lookupRate usdRates s.Currency) ∧
    0 < (CalculatePortfolioMetrics negPriceStocks usdRates).TotalValue ∧
    sectorWeightSum (CalculatePortfolioMetrics negPriceStocks usdRates).SectorWeights = 200 ∧
    ¬ |sectorWeightSum (CalculatePortfolioMetrics negPriceStocks usdRates).SectorWeights
        - 100| ≤ 1 / 10 := by
  have hsw : sectorWeightSum
      (CalculatePortfolioMetrics negPriceStocks usdRates).SectorWeights = 200 := by
    norm_num [CalculatePortfolioMetrics, pass2Result, pass2Step, stockValueEUR,
      lookupRate, addToSectorMap, sectorWeightSum, negPriceStocks, baseStock, usdRates]
  refine ⟨?_, ?_, hsw, ?_⟩
  · intro s hs
    simp only [negPriceStocks, List.mem_cons, List.not_mem_nil, or_false] at hs
    rcases hs with h | h <;> subst h <;> norm_num [lookupRate, usdRates, baseStock]
  · norm_num [CalculatePortfolioMetrics, stockValueEUR, lookupRate, negPriceStocks,
      baseStock, usdRates]
  · rw [hsw]
    norm_num

/-- C7 (amended): when every position's currency has a positive rate and
every position's current price is non-negative, a positive total value
forces the sector weights to sum to exactly 100 and the Kelly utilization to
equal 100 as well; the empty portfolio and the all-excluded portfolio give
the all-zero summary with an empty sector map. -/
theorem portfolio_sectorWeights_partition :
    (∀ (stocks : List Stock) (fxRates : List (String × ℚ)),
      (∀ s ∈ stocks, 0 < lookupRate fxRates s.Currency) →
      (∀ s ∈ stocks, 0 ≤ s.CurrentPrice) →
      0 < (CalculatePortfolioMetrics stocks fxRates).TotalValue →
      sectorWeightSum (CalculatePortfolioMetrics stocks fxRates).SectorWeights = 100 ∧
      (CalculatePortfolioMetrics stocks fxRates).KellyUtilization = 100) ∧
    (∀ fxRates : List (String × ℚ),
      CalculatePortfolioMetrics [] fxRates = zeroSummary) ∧
    (∀ (stocks : List Stock) (fxRates : List (String × ℚ)),
      (∀ s ∈ stocks, s.SharesOwned ≤ 0) →
      CalculatePortfolioMetrics stocks fxRates = zeroSummary) := by
  refine ⟨?_, ?_, ?_⟩
  · intro stocks fxRates hrate hprice htv
    have htv' : 0 < (stocks.map (stockValueEUR fxRates)).sum := htv
    have hnn : ∀ s ∈ stocks, 0 ≤ stockValueEUR fxRates s := by
      intro s hs
      unfold stockValueEUR
      split_ifs with h1 h2
      · exact le_refl 0
      · exact le_refl 0
      · have hsh : 0 < (s.SharesOwned : ℚ) := by exact_mod_cast not_le.mp h1
        exact div_nonneg (mul_nonneg (le_of_lt hsh) (hprice s hs))
          (le_of_lt (not_le.mp h2))
    have hpt : ∀ s ∈ stocks,
        pass2Contribution fxRates ((stocks.map (stockValueEUR fxRates)).sum) s =
          stockValueEUR fxRates s / ((stocks.map (stockValueEUR fxRates)).sum) * 100 := by
      intro s hs
      unfold pass2Contribution
      split_ifs with h1 h2
      · rw [stockValueEUR_excluded fxRates s (Or.inl h1)]
        simp
      · rfl
      · push_neg at h2
        have hv0 : stockValueEUR fxRates s = 0 := le_antisymm (h2 htv') (hnn s hs)
        rw [hv0]
        simp
    have hmap :
        (stocks.map (pass2Contribution fxRates ((stocks.map (stockValueEUR fxRates)).sum))).sum
          = 100 := by
      rw [List.map_congr_left hpt, sum_map_div_mul, div_self (ne_of_gt htv')]
      norm_num
    constructor
    · show sectorWeightSum (pass2Result stocks fxRates).sectorWeights = 100
      unfold pass2Result
      rw [pass2_fold_sector]
      simpa [sectorWeightSum] using hmap
    · show (pass2Result stocks fxRates).kellyUtilization = 100
      unfold pass2Result
      rw [pass2_fold_kelly]
      simpa using hmap
  · intro fxRates
    norm_num [CalculatePortfolioMetrics, pass2Result, zeroSummary]
  · intro stocks fxRates hall
    have hsum : (stocks.map (stockValueEUR fxRates)).sum = 0 := by
      apply List.sum_eq_zero
      intro x hx
      rcases List.mem_map.mp hx with ⟨s, hs, rfl⟩
      exact stockValueEUR_excluded fxRates s (Or.inl (hall s hs))
    have hfold : ∀ (l : List Stock), (∀ s ∈ l, s.SharesOwned ≤ 0) →
        ∀ (tv : ℚ) (init : Pass2Acc), l.foldl (pass2Step fxRates tv) init = init := by
      intro l
      induction l with
      | nil => intro _ tv init; rfl
      | cons a rest ih =>
        intro h tv init
        rw [List.foldl_cons,
          pass2Step_excluded fxRates tv init a (Or.inl (h a (List.mem_cons_self a rest)))]
        exact ih (fun s hs => h s (List.mem_cons_of_mem a hs)) tv init
    norm_num [CalculatePortfolioMetrics, pass2Result, zeroSummary, hsum,
      hfold stocks hall]

/-- Witness for the amended C7: a single owned USD position at price 100
gives sector weights summing to exactly 100 and Kelly utilization 100, and
the all-excluded singleton gives the zero summary. -/
theorem portfolio_sectorWeights_partition_witness :
    sectorWeightSum (CalculatePortfolioMetrics
      [{ baseStock with SharesOwned := 1, CurrentPrice := 100 }] usdRates).SectorWeights
        = 100 ∧
    (CalculatePortfolioMetrics
      [{ baseStock with SharesOwned := 1, CurrentPrice := 100 }] usdRates).KellyUtilization
        = 100 ∧
    CalculatePortfolioMetrics [baseStock] usdRates = zeroSummary := by
  have h1 : ∀ s ∈ [({ baseStock with SharesOwned := 1, CurrentPrice := 100 } : Stock)],
      0 < lookupRate usdRates s.Currency := by
    intro s hs
    simp only [List.mem_singleton] at hs
    subst hs
    norm_num [lookupRate, usdRates, baseStock]
  have h2 : ∀ s ∈ [({ baseStock with SharesOwned := 1, CurrentPrice := 100 } : Stock)],
      0 ≤ s.CurrentPrice := by
    intro s hs
    simp only [List.mem_singleton] at hs
    subst hs
    norm_num [baseStock]
  have h3 : 0 < (CalculatePortfolioMetrics
      [{ baseStock with SharesOwned := 1, CurrentPrice := 100 }] usdRates).TotalValue := by
    norm_num [CalculatePortfolioMetrics, stockValueEUR, lookupRate, usdRates, baseStock]
  have h4 : ∀ s ∈ [baseStock], s.SharesOwned ≤ 0 := by
    intro s hs
    simp only [List.mem_singleton] at hs
    subst hs
    norm_num [baseStock]
  obtain ⟨hsec, hkelly⟩ := portfolio_sectorWeights_partition.1 _ usdRates h1 h2 h3
  exact ⟨hsec, hkelly, portfolio_sectorWeights_partition.2.2 _ usdRates h4⟩

end StockBackend
